import Mathlib

/-!
Shallow embedding of the GoHighLevel → CallTools contact-sync worker.

Sources embedded here:
- `src/services/contactSyncService.ts` — `ContactSyncService` (classification in
  `syncSingleContact`, `syncColdContacts`, `syncContact`, the ledger helpers
  `getSyncedContact` / `createOrUpdateSyncRecord` / `updateSyncRecord` /
  `markAsCustomer`) and `WebhookVerificationService.verifyTimestamp`.
- `src/clients/calltools.ts` — the CallTools client (`getContactByExternalId`
  with its phone-number normalisation, `createContact`, `updateContact`,
  `addContactToBucket`, `addTagToContact`).
- `src/endpoints/webhook/ghlWebhook.ts` (`GHLWebhook.handle`) and
  `src/endpoints/webhook/ghlWorkflow.ts` (`GHLWorkflow.handle`).

The D1 ledger table `synced_contacts` (unique key `ghl_contact_id`) is embedded
as a function `String → Option SyncedContact`; the remote CallTools store is a
list of contacts plus a fresh-id counter; every outbound CallTools request is
recorded in a call trace.  Remote failures (non-2xx responses that make the
client throw) are modelled by boolean fields of a `CTEnv` environment, and
`new Date().toISOString()` by the environment's `nowTs` field.
-/

namespace SyncWorker

/-- Whether `pat` occurs as a contiguous sublist of `s`. -/
def containsSub (pat : List Char) : List Char → Bool
  | [] => pat.isEmpty
  | c :: rest => pat.isPrefixOf (c :: rest) || containsSub pat rest

/-- JavaScript `String.prototype.includes`: substring containment. -/
def strContains (s pat : String) : Bool :=
  containsSub pat.data s.data

/-- JavaScript `String.prototype.toLowerCase` on the ASCII tag strings this
program compares: lower-case every character. -/
def lowerStr (s : String) : String :=
  String.mk (s.data.map Char.toLower)

/-- JavaScript `a || b` for a possibly-undefined string `a` with string
fallback `b`: the empty string and `undefined` are both falsy. -/
def jsOrStr (a : Option String) (b : String) : String :=
  match a with
  | some v => if v = "" then b else v
  | none => b

/-- JavaScript truthiness of a possibly-undefined string. -/
def jsTruthy (a : Option String) : Bool :=
  match a with
  | some v => v ≠ ""
  | none => false

/-- JavaScript `String.prototype.split(',')` on a non-empty string. -/
def jsSplitComma (t : String) : List String :=
  (t.data.splitOn ',').map String.mk

/-- First truthy value of a JavaScript `||` chain over possibly-undefined
strings (`undefined` if every operand is falsy). -/
def jsFirstTruthy (l : List (Option String)) : Option String :=
  l.findSome? fun o =>
    match o with
    | some s => if s = "" then none else some s
    | none => none

/-- Customer-family test from `syncSingleContact` (contactSyncService.ts:90-95):
`tag.includes('customer') || tag.includes('client') || tag.includes('won') ||
tag.includes('purchased')` on a lower-cased tag. -/
def isCustomerTag (tag : String) : Bool :=
  strContains tag "customer" || strContains tag "client" ||
    strContains tag "won" || strContains tag "purchased"

/-- Cold-lead test from `syncSingleContact` (contactSyncService.ts:110-115):
`tag === 'cold lead' || tag.includes('cold') || tag.includes('new lead') ||
tag.includes('prospect')` on a lower-cased tag. -/
def isColdTag (tag : String) : Bool :=
  tag = "cold lead" || strContains tag "cold" ||
    strContains tag "new lead" || strContains tag "prospect"

/-- Active-client marker test.  Modelled from the spec: the exact-match
active-label family ("ACA Active 2025" / "ACA Active 2026",
case-insensitive) is documented in ACTIVE_CLIENTS_FEATURE.md and
DEPLOY_NOW.md, but the modified `syncSingleContact` that checks it is not
present in the captured source. -/
def isActiveClientTag (tag : String) : Bool :=
  tag = "aca active 2025" || tag = "aca active 2026"

/-- Classifier outcomes (spec §4.1). -/
inductive Classification where
  | activeClient
  | genericCustomer
  | coldLead
  | excluded
deriving DecidableEq, Repr

/-- Modelled from the spec: the contact classifier of §4.1 / DEPLOY_NOW.md
("Priority order: 1. ACA Active tags → syncActiveClient, 2. generic customer
tags → markAsCustomer, 3. cold lead tags → sync as cold lead, 4. otherwise
exclude").  The customer and cold families are the ones present in the
captured `syncSingleContact`; the active-client branch is missing from the
captured source and is taken from the spec's words.  Tags are lower-cased
first, as in the source. -/
def classifyContact (tags : List String) : Classification :=
  let ts := tags.map lowerStr
  if ts.any isActiveClientTag then .activeClient
  else if ts.any isCustomerTag then .genericCustomer
  else if ts.any isColdTag then .coldLead
  else .excluded

/-- `WebhookVerificationService.verifyTimestamp` (webhookVerification.ts):
`age = Date.now() - timestamp`; reject if `age < 0` or `age > 5*60*1000`,
accept otherwise.  `now` is the current clock reading. -/
def verifyTimestamp (now timestamp : Int) : Bool :=
  if now - timestamp < 0 then false
  else if now - timestamp > 5 * 60 * 1000 then false
  else true

/-- Values of the `sync_status` column of `synced_contacts`. -/
inductive SyncStatus where
  | pending
  | synced
  | failed
  | excluded
deriving DecidableEq, Repr

/-- One row of the `synced_contacts` D1 table (interface `SyncedContact`).
`is_customer` is an SQL integer flag (0 or 1 in practice). -/
structure SyncedContact where
  ghl_contact_id : String
  calltools_contact_id : Option String
  first_name : Option String
  last_name : Option String
  phone : Option String
  email : Option String
  sync_status : SyncStatus
  last_sync_at : Option String
  error_message : Option String
  is_customer : Nat
deriving DecidableEq, Repr

/-- The ledger table, keyed by its unique key `ghl_contact_id`. -/
def Ledger := String → Option SyncedContact

def emptyLedger : Ledger := fun _ => none

/-- `getSyncedContact`: `SELECT * FROM synced_contacts WHERE ghl_contact_id = ?`. -/
def getSyncedContact (db : Ledger) (id : String) : Option SyncedContact :=
  db id

/-- Argument record of `createOrUpdateSyncRecord`
(`Omit<SyncedContact, 'id' | 'created_at' | 'updated_at'>`). -/
structure RecordData where
  ghl_contact_id : String
  calltools_contact_id : Option String
  first_name : Option String
  last_name : Option String
  phone : Option String
  email : Option String
  sync_status : SyncStatus
  last_sync_at : Option String
  error_message : Option String
  is_customer : Nat
deriving DecidableEq, Repr

/-- JavaScript `x || null` on a nullable string: the empty string collapses
to null. -/
def jsOrNull (a : Option String) : Option String :=
  match a with
  | some v => if v = "" then none else some v
  | none => none

/-- `createOrUpdateSyncRecord`: if a row with this `ghl_contact_id` exists,
`UPDATE` every column from `data`; otherwise `INSERT` a fresh row, with the
source's `|| null` coercions on the nullable columns. -/
def createOrUpdateSyncRecord (db : Ledger) (data : RecordData) : Ledger :=
  match getSyncedContact db data.ghl_contact_id with
  | some r =>
      fun k =>
        if k = data.ghl_contact_id then
          some { r with
            calltools_contact_id := data.calltools_contact_id
            first_name := data.first_name
            last_name := data.last_name
            phone := data.phone
            email := data.email
            sync_status := data.sync_status
            last_sync_at := data.last_sync_at
            error_message := data.error_message
            is_customer := data.is_customer }
        else db k
  | none =>
      fun k =>
        if k = data.ghl_contact_id then
          some { ghl_contact_id := data.ghl_contact_id
                 calltools_contact_id := jsOrNull data.calltools_contact_id
                 first_name := jsOrNull data.first_name
                 last_name := jsOrNull data.last_name
                 phone := jsOrNull data.phone
                 email := jsOrNull data.email
                 sync_status := data.sync_status
                 last_sync_at := jsOrNull data.last_sync_at
                 error_message := jsOrNull data.error_message
                 is_customer := data.is_customer }
        else db k

/-- Argument record of `updateSyncRecord`: a partial update.  An outer `none`
is a field left `undefined` (column untouched); `some none` is an explicit
SQL `NULL`. -/
structure SyncUpdates where
  calltools_contact_id : Option (Option String) := none
  first_name : Option (Option String) := none
  last_name : Option (Option String) := none
  phone : Option (Option String) := none
  email : Option (Option String) := none
  sync_status : Option SyncStatus := none
  last_sync_at : Option (Option String) := none
  error_message : Option (Option String) := none
deriving DecidableEq, Repr

/-- `updateSyncRecord`: when no row exists, create one from the updates with
`|| null` defaults (`sync_status || 'pending'`, `is_customer: 0`); when a row
exists, `UPDATE` exactly the provided (non-`undefined`) columns. -/
def updateSyncRecord (db : Ledger) (id : String) (u : SyncUpdates) : Ledger :=
  match getSyncedContact db id with
  | none =>
      createOrUpdateSyncRecord db
        { ghl_contact_id := id
          calltools_contact_id := jsOrNull (u.calltools_contact_id.getD none)
          first_name := jsOrNull (u.first_name.getD none)
          last_name := jsOrNull (u.last_name.getD none)
          phone := jsOrNull (u.phone.getD none)
          email := jsOrNull (u.email.getD none)
          sync_status := u.sync_status.getD .pending
          last_sync_at := jsOrNull (u.last_sync_at.getD none)
          error_message := jsOrNull (u.error_message.getD none)
          is_customer := 0 }
  | some r =>
      fun k =>
        if k = id then
          some { r with
            calltools_contact_id := u.calltools_contact_id.getD r.calltools_contact_id
            first_name := u.first_name.getD r.first_name
            last_name := u.last_name.getD r.last_name
            phone := u.phone.getD r.phone
            email := u.email.getD r.email
            sync_status := u.sync_status.getD r.sync_status
            last_sync_at := u.last_sync_at.getD r.last_sync_at
            error_message := u.error_message.getD r.error_message }
        else db k

/-- `markAsCustomer`: set `sync_status = 'excluded'` through
`updateSyncRecord`, then `UPDATE synced_contacts SET is_customer = 1`. -/
def markAsCustomer (db : Ledger) (id : String) : Ledger :=
  let db1 := updateSyncRecord db id { sync_status := some .excluded }
  fun k =>
    if k = id then (db1 k).map (fun r => { r with is_customer := 1 })
    else db1 k

/-- The `CallToolsContact` payload built in `syncContact`. -/
structure CTPayload where
  first_name : String
  last_name : String
  phone_number : String
  email : String
  external_id : Option String
  bucket_id : String
deriving DecidableEq, Repr

/-- A contact record held by the remote CallTools system. -/
structure CTContact where
  id : String
  first_name : String
  last_name : String
  phone_number : String
  email : String
  external_id : Option String
deriving DecidableEq, Repr

/-- The remote CallTools contact store; `nextId` yields fresh contact ids. -/
structure CTStore where
  contacts : List CTContact
  nextId : Nat
deriving DecidableEq, Repr

def emptyCTStore : CTStore := { contacts := [], nextId := 0 }

/-- One outbound write request to CallTools, for the call trace. -/
inductive CTCall where
  | create (payload : CTPayload)
  | update (contactId : String) (payload : CTPayload)
  | addBucket (contactId bucketId : String)
  | addTag (contactId tagName : String)
deriving DecidableEq, Repr

/-- Environment for one reconcile: which remote calls fail (making the client
throw), and the `new Date().toISOString()` reading used for `last_sync_at`. -/
structure CTEnv where
  lookupFails : Bool := false
  createFails : Bool := false
  updateFails : Bool := false
  bucketFails : Bool := false
  nowTs : String := "t0"
deriving DecidableEq, Repr

/-- The character class removed by `replace(/[\s\-\(\)]/g, '')` in
`getContactByExternalId`. -/
def isPhoneJunk (c : Char) : Bool :=
  c.isWhitespace || c = '-' || c = '(' || c = ')'

/-- Phone normalisation inside `getContactByExternalId` (calltools.ts:144-155):
keep a leading `+` as-is, otherwise strip separators and prepend the US
country code by digit count. -/
def normalizeSearchPhone (p : String) : String :=
  if p.startsWith "+" then p
  else
    let digitsOnly := String.mk (p.data.filter (fun c => !(isPhoneJunk c)))
    if digitsOnly.length = 10 then "+1" ++ digitsOnly
    else if digitsOnly.length = 11 && digitsOnly.startsWith "1" then
      "+" ++ digitsOnly
    else "+" ++ digitsOnly

/-- `CallToolsClient.getContactByExternalId` (calltools.ts:132-197): without a
`phoneNumber` argument it logs and returns null; with one it normalises the
number and queries `?phone_number=`, returning the first match.  Any request
failure is caught and null returned.  The remote filter is modelled as exact
match on the stored `phone_number`. -/
def getContactByExternalId (env : CTEnv) (store : CTStore)
    (externalId : String) (phoneNumber : Option String) : Option CTContact :=
  if env.lookupFails then none
  else
    match phoneNumber with
    | none => none
    | some p =>
        let searchPhone := normalizeSearchPhone p
        store.contacts.find? (fun c => c.phone_number == searchPhone)

/-- `CallToolsClient.createContact`: the remote allocates a fresh id and
stores the submitted fields, echoing the created contact. -/
def ctCreateContact (store : CTStore) (p : CTPayload) : CTContact × CTStore :=
  let c : CTContact :=
    { id := toString store.nextId
      first_name := p.first_name
      last_name := p.last_name
      phone_number := p.phone_number
      email := p.email
      external_id := p.external_id }
  (c, { contacts := store.contacts ++ [c], nextId := store.nextId + 1 })

/-- `CallToolsClient.updateContact`: overwrite the stored fields of the
contact with the given id. -/
def ctUpdateContact (store : CTStore) (contactId : String) (p : CTPayload) :
    CTStore :=
  { store with
    contacts := store.contacts.map (fun c =>
      if c.id == contactId then
        { c with
          first_name := p.first_name
          last_name := p.last_name
          phone_number := p.phone_number
          email := p.email
          external_id := p.external_id }
      else c) }

/-- A contact as resolved from GoHighLevel (interface `GHLContact`). -/
structure GHLContact where
  id : String
  name : Option String := none
  firstName : Option String := none
  lastName : Option String := none
  email : Option String := none
  phone : Option String := none
  tags : List String := []
deriving DecidableEq, Repr

/-- The aggregate `SyncResult` record. -/
structure SyncResult where
  total_processed : Nat
  synced : Nat
  updated : Nat
  excluded_customers : Nat
  failed : Nat
  bucket_name : String
  bucket_id : Option String
  errors : List (String × String)
deriving DecidableEq, Repr

/-- Combined system state threaded through a reconcile: the ledger, the
remote CallTools store, and the trace of outbound CallTools write calls. -/
structure SyncState where
  db : Ledger
  ct : CTStore
  calls : List CTCall

def initialState : SyncState :=
  { db := emptyLedger, ct := emptyCTStore, calls := [] }

/-- The `callToolsContact` payload built at contactSyncService.ts:240-248,
with the JavaScript `||` fallbacks. -/
def syncContactPayload (ghl : GHLContact) (bucketId : String) : CTPayload :=
  { first_name := jsOrStr ghl.firstName (jsOrStr ghl.name "Unknown")
    last_name := jsOrStr ghl.lastName ""
    phone_number := jsOrStr ghl.phone ""
    email := jsOrStr ghl.email ""
    external_id := some ghl.id
    bucket_id := bucketId }

/-- Tail of the update path of `syncContact`'s try block: add the
"ACA Cold lead" tag (`addTagToContact` swallows its own errors) and write the
full `synced` ledger update. -/
def syncUpdateFinish (env : CTEnv) (ghl : GHLContact) (payload : CTPayload)
    (existingId : String) (res : SyncResult) (st : SyncState) :
    (SyncState × SyncResult) ⊕ (SyncState × String) :=
  let st := { st with calls := st.calls ++ [CTCall.addTag existingId "ACA Cold lead"] }
  let db' := updateSyncRecord st.db ghl.id
      { calltools_contact_id := some (some existingId)
        first_name := some (some payload.first_name)
        last_name := some (some payload.last_name)
        phone := some (some payload.phone_number)
        email := some (some payload.email)
        sync_status := some .synced
        last_sync_at := some (some env.nowTs)
        error_message := some none }
  Sum.inl ({ st with db := db' }, { res with updated := res.updated + 1 })

/-- Tail of the create path of `syncContact`'s try block: add the
"ACA Cold lead" tag and insert the `synced` ledger row (with the source's
`|| null` coercions). -/
def syncCreateFinish (env : CTEnv) (ghl : GHLContact) (payload : CTPayload)
    (created : CTContact) (res : SyncResult) (st : SyncState) :
    (SyncState × SyncResult) ⊕ (SyncState × String) :=
  let st := { st with calls := st.calls ++ [CTCall.addTag created.id "ACA Cold lead"] }
  let db' := createOrUpdateSyncRecord st.db
      { ghl_contact_id := ghl.id
        calltools_contact_id := some created.id
        first_name := some payload.first_name
        last_name := jsOrNull (some payload.last_name)
        phone := some payload.phone_number
        email := jsOrNull (some payload.email)
        sync_status := .synced
        last_sync_at := some env.nowTs
        error_message := none
        is_customer := 0 }
  Sum.inl ({ st with db := db' }, { res with synced := res.synced + 1 })

/-- The try block of `syncContact` (contactSyncService.ts:250-325).  The
lookup is invoked with a single argument, so the optional `phoneNumber`
parameter of `getContactByExternalId` is `undefined`.  `Sum.inr` carries a
thrown error together with the side effects already performed. -/
def syncContactTry (env : CTEnv) (ghl : GHLContact) (payload : CTPayload)
    (bucketId : String) (res : SyncResult) (st : SyncState) :
    (SyncState × SyncResult) ⊕ (SyncState × String) :=
  match getContactByExternalId env st.ct ghl.id none with
  | some existing =>
      let st1 := { st with calls := st.calls ++ [CTCall.update existing.id payload] }
      if env.updateFails then Sum.inr (st1, "CallTools API error")
      else
        let st2 := { st1 with ct := ctUpdateContact st1.ct existing.id payload }
        if bucketId ≠ "" then
          let st3 := { st2 with calls := st2.calls ++ [CTCall.addBucket existing.id bucketId] }
          if env.bucketFails then Sum.inr (st3, "CallTools API error")
          else syncUpdateFinish env ghl payload existing.id res st3
        else syncUpdateFinish env ghl payload existing.id res st2
  | none =>
      let st1 := { st with calls := st.calls ++ [CTCall.create payload] }
      if env.createFails then Sum.inr (st1, "CallTools API error")
      else
        let (created, ct') := ctCreateContact st1.ct payload
        let st2 := { st1 with ct := ct' }
        if bucketId ≠ "" then
          let st3 := { st2 with calls := st2.calls ++ [CTCall.addBucket created.id bucketId] }
          if env.bucketFails then Sum.inr (st3, "CallTools API error")
          else syncCreateFinish env ghl payload created res st3
        else syncCreateFinish env ghl payload created res st2

/-- Body of `syncContact` after the sticky-customer check: require a phone
number, then run the try block; a thrown error is caught, recorded as a
`failed` ledger update and rethrown (the `Option String` component). -/
def syncContactBody (env : CTEnv) (ghl : GHLContact) (res : SyncResult)
    (bucketId : String) (st : SyncState) :
    SyncState × SyncResult × Option String :=
  if jsOrStr ghl.phone "" = "" then
    let db' := updateSyncRecord st.db ghl.id
        { sync_status := some .failed
          error_message := some (some "No phone number") }
    ({ st with db := db' }, { res with failed := res.failed + 1 }, none)
  else
    let payload := syncContactPayload ghl bucketId
    match syncContactTry env ghl payload bucketId res st with
    | .inl (st', res') => (st', res', none)
    | .inr (st', msg) =>
        let db' := updateSyncRecord st'.db ghl.id
            { sync_status := some .failed
              error_message := some (some msg) }
        ({ st' with db := db' }, res, some msg)

/-- `ContactSyncService.syncContact` (contactSyncService.ts:218-333): skip
contacts whose ledger row has `is_customer = 1`, else reconcile. -/
def syncContact (env : CTEnv) (ghl : GHLContact) (res : SyncResult)
    (bucketId : String) (st : SyncState) :
    SyncState × SyncResult × Option String :=
  match getSyncedContact st.db ghl.id with
  | some r =>
      if r.is_customer = 1 then
        (st, { res with excluded_customers := res.excluded_customers + 1 }, none)
      else syncContactBody env ghl res bucketId st
  | none => syncContactBody env ghl res bucketId st

/-- The `action` field of `syncSingleContact`'s result. -/
inductive SyncAction where
  | synced
  | updated
  | excluded
  | failed
deriving DecidableEq, Repr

/-- The result record of `syncSingleContact`. -/
structure SingleResult where
  success : Bool
  contact_id : String
  action : SyncAction
  bucket_id : Option String
  error : Option String
deriving DecidableEq, Repr

/-- The hard-coded Cold Leads bucket id. -/
def coldLeadsBucketId : String := "11237"

/-- `ContactSyncService.syncSingleContact` (contactSyncService.ts:54-163).
`resolved` is the contact as obtained either from the webhook snapshot or
from the GoHighLevel fetch; `none` models the fetch throwing, which the
outer catch turns into a failed result. -/
def syncSingleContact (env : CTEnv) (ghlContactId : String)
    (resolved : Option GHLContact) (st : SyncState) :
    SyncState × SingleResult :=
  match resolved with
  | none =>
      (st, { success := false, contact_id := ghlContactId, action := .failed,
             bucket_id := none, error := some "GoHighLevel API error" })
  | some ghl =>
      let tags := ghl.tags.map lowerStr
      if tags.any isCustomerTag then
        ({ st with db := markAsCustomer st.db ghlContactId },
         { success := true, contact_id := ghlContactId, action := .excluded,
           bucket_id := none, error := none })
      else if !(tags.any isColdTag) then
        (st, { success := true, contact_id := ghlContactId, action := .excluded,
               bucket_id := none,
               error := some "Contact does not have cold lead tag" })
      else
        let res0 : SyncResult :=
          { total_processed := 1, synced := 0, updated := 0,
            excluded_customers := 0, failed := 0, bucket_name := "Cold Leads",
            bucket_id := some coldLeadsBucketId, errors := [] }
        match syncContact env ghl res0 coldLeadsBucketId st with
        | (st', res, none) =>
            let action := if res.synced > 0 then SyncAction.synced
              else if res.updated > 0 then SyncAction.updated
              else SyncAction.failed
            (st', { success := res.failed = 0, contact_id := ghlContactId,
                    action := action, bucket_id := some coldLeadsBucketId,
                    error := (res.errors.head?).map Prod.snd })
        | (st', _, some e) =>
            (st', { success := false, contact_id := ghlContactId,
                    action := .failed, bucket_id := none, error := some e })

/-- The per-contact loop of `syncColdContacts`: a thrown `syncContact` error
is caught, counted as `failed` and appended to the error list, and the loop
continues. -/
def syncColdLoop (env : String → CTEnv) (contacts : List GHLContact)
    (st : SyncState) (res : SyncResult) : SyncState × SyncResult :=
  match contacts with
  | [] => (st, res)
  | ghl :: rest =>
      match syncContact (env ghl.id) ghl res coldLeadsBucketId st with
      | (st', res', none) => syncColdLoop env rest st' res'
      | (st', res', some e) =>
          syncColdLoop env rest st'
            { res' with failed := res'.failed + 1,
                        errors := res'.errors ++ [(ghl.id, e)] }

/-- `ContactSyncService.syncColdContacts` (contactSyncService.ts:168-213);
`coldContacts` is the list the CRM fetch returned. -/
def syncColdContacts (env : String → CTEnv) (coldContacts : List GHLContact)
    (st : SyncState) : SyncState × SyncResult :=
  let res0 : SyncResult :=
    { total_processed := coldContacts.length, synced := 0, updated := 0,
      excluded_customers := 0, failed := 0, bucket_name := "Cold Leads",
      bucket_id := some coldLeadsBucketId, errors := [] }
  syncColdLoop env coldContacts st res0

/-- The fields of a parsed webhook/workflow JSON body that the handlers read.
`contactDotId` stands for the nested `contact?.id`. -/
structure WebhookPayload where
  id : Option String := none
  contactId : Option String := none
  contact_id : Option String := none
  contactDotId : Option String := none
  first_name : Option String := none
  last_name : Option String := none
  full_name : Option String := none
  email : Option String := none
  phone : Option String := none
  tags : Option String := none
  contact_type : Option String := none
deriving DecidableEq, Repr

/-- Contact-id extraction of `GHLWebhook.handle` (ghlWebhook.ts:137-145):
`webhook.id || webhook.contactId || webhook.contact_id || webhook.contact?.id`
(the source repeats the chain over `webhookData`, the same parsed object). -/
def webhookContactId (w : WebhookPayload) : Option String :=
  jsFirstTruthy [w.id, w.contactId, w.contact_id, w.contactDotId]

/-- Contact-id extraction of `GHLWorkflow.handle` (ghlWorkflow.ts:254-258):
`contact_id || contactId || id || contact?.id`. -/
def workflowContactId (w : WebhookPayload) : Option String :=
  jsFirstTruthy [w.contact_id, w.contactId, w.id, w.contactDotId]

/-- The webhook-snapshot → `GHLContact` transform of `syncSingleContact`
(contactSyncService.ts:71-80).  The source copies
`webhookContactData.contact_id` into `id`; a JS `undefined` there is
modelled as the empty string. -/
def webhookToGHLContact (w : WebhookPayload) : GHLContact :=
  { id := w.contact_id.getD ""
    firstName := w.first_name
    lastName := w.last_name
    name := w.full_name
    email := w.email
    phone := w.phone
    tags :=
      match w.tags with
      | some t => if t = "" then [] else jsSplitComma t
      | none => [] }

/-- An HTTP response of the handlers, reduced to the pieces the spec talks
about: status code, `success` flag and message. -/
structure Response where
  status : Nat
  success : Bool
  message : String
deriving DecidableEq, Repr

/-- An inbound request on the signed webhook path.  `sigValid` is the outcome
the HMAC check (an external crypto capability) would produce for this body
and signature; `parsed` is the `JSON.parse` outcome of the raw body. -/
structure WebhookReq where
  secretConfigured : Bool
  signature : Option String
  sigValid : Bool
  parsed : Option WebhookPayload
deriving DecidableEq, Repr

/-- An inbound request on the unsigned workflow path.  `fetched` is what
`ghlClient.getContact` would resolve for the extracted id (`none` = the
fetch throws). -/
structure WorkflowReq where
  parsed : Option WebhookPayload
  ghlKeyConfigured : Bool := true
  ctKeyConfigured : Bool := true
  fetched : Option GHLContact := none
deriving DecidableEq, Repr

def actionName : SyncAction → String
  | .synced => "synced"
  | .updated => "updated"
  | .excluded => "excluded"
  | .failed => "failed"

/-- Body processing of `GHLWebhook.handle` after the signature gate
(ghlWebhook.ts:108-188): parse, extract a contact id, sync (passing the
webhook snapshot), respond. -/
def ghlWebhookBody (env : CTEnv) (req : WebhookReq) (st : SyncState) :
    Response × SyncState :=
  match req.parsed with
  | none =>
      ({ status := 400, success := false, message := "Invalid JSON payload" }, st)
  | some w =>
      match webhookContactId w with
      | none =>
          ({ status := 400, success := false,
             message := "No contact ID found in webhook payload" }, st)
      | some contactId =>
          let out := syncSingleContact env contactId (some (webhookToGHLContact w)) st
          ({ status := 200, success := out.2.success,
             message :=
               if out.2.success then
                 "Contact " ++ actionName out.2.action ++ " successfully"
               else
                 "Failed to sync contact: " ++ out.2.error.getD "undefined" },
           out.1)

/-- `GHLWebhook.handle` (ghlWebhook.ts:69-199).  When a secret is configured
and a signature is present but fails verification, respond 401; when the
signature is missing, the source logs a warning and proceeds anyway. -/
def ghlWebhookHandle (env : CTEnv) (req : WebhookReq) (st : SyncState) :
    Response × SyncState :=
  if req.secretConfigured then
    match req.signature with
    | some _ =>
        if req.sigValid then ghlWebhookBody env req st
        else
          ({ status := 401, success := false,
             message := "Invalid webhook signature" }, st)
    | none => ghlWebhookBody env req st
  else ghlWebhookBody env req st

/-- `GHLWorkflow.handle` (ghlWorkflow.ts:222-328): no signature gate; parse,
extract a contact id, check the configured keys, fetch the contact inside
`syncSingleContact`, respond. -/
def ghlWorkflowHandle (env : CTEnv) (req : WorkflowReq) (st : SyncState) :
    Response × SyncState :=
  match req.parsed with
  | none =>
      ({ status := 400, success := false, message := "Invalid JSON payload" }, st)
  | some w =>
      match workflowContactId w with
      | none =>
          ({ status := 400, success := false,
             message := "No contact ID found in workflow data" }, st)
      | some contactId =>
          if !req.ghlKeyConfigured then
            ({ status := 500, success := false,
               message := "GoHighLevel API key not configured" }, st)
          else if !req.ctKeyConfigured then
            ({ status := 500, success := false,
               message := "CallTools API key not configured" }, st)
          else
            let out := syncSingleContact env contactId req.fetched st
            ({ status := 200, success := out.2.success,
               message :=
                 if out.2.success then
                   "Contact " ++ actionName out.2.action ++ " successfully in CallTools"
                 else
                   "Failed to sync contact: " ++ out.2.error.getD "undefined" },
             out.1)

/-- The sum of the four per-contact outcome counters of a `SyncResult`. -/
def counterSum (res : SyncResult) : Nat :=
  res.synced + res.updated + res.excluded_customers + res.failed

/-- The ledger-writing operations the service can reach, one constructor per
call site: the two `failed` updates (no phone / caught error), the full
`synced` update of the update path, the `synced` insert of the create path,
and `markAsCustomer` (sync flow and admin endpoint). -/
inductive LedgerOp where
  | opFailed (id msg : String)
  | opSyncedUpdate (id ctid fn ln ph em ts : String)
  | opSyncedCreate (id ctid fn ln ph em ts : String)
  | opMarkCustomer (id : String)
deriving DecidableEq, Repr

/-- Apply one ledger write with exactly the arguments its call site passes. -/
def applyOp (db : Ledger) : LedgerOp → Ledger
  | .opFailed id msg =>
      updateSyncRecord db id
        { sync_status := some .failed, error_message := some (some msg) }
  | .opSyncedUpdate id ctid fn ln ph em ts =>
      updateSyncRecord db id
        { calltools_contact_id := some (some ctid)
          first_name := some (some fn)
          last_name := some (some ln)
          phone := some (some ph)
          email := some (some em)
          sync_status := some .synced
          last_sync_at := some (some ts)
          error_message := some none }
  | .opSyncedCreate id ctid fn ln ph em ts =>
      createOrUpdateSyncRecord db
        { ghl_contact_id := id
          calltools_contact_id := some ctid
          first_name := some fn
          last_name := jsOrNull (some ln)
          phone := some ph
          email := jsOrNull (some em)
          sync_status := .synced
          last_sync_at := some ts
          error_message := none
          is_customer := 0 }
  | .opMarkCustomer id => markAsCustomer db id

def applyOps (ops : List LedgerOp) (db : Ledger) : Ledger :=
  ops.foldl applyOp db

/-- Environmental fact about a ledger write: the `last_sync_at` value a
`synced` write carries comes from `new Date().toISOString()` and is a
non-empty string. -/
def opTsOk : LedgerOp → Prop
  | .opSyncedUpdate _ _ _ _ _ _ ts => ts ≠ ""
  | .opSyncedCreate _ _ _ _ _ _ ts => ts ≠ ""
  | _ => True

/-- The row invariant of spec §3: a `synced` row has a timestamp and no
error. -/
def SyncedRowOk (r : SyncedContact) : Prop :=
  r.sync_status = .synced → r.last_sync_at.isSome = true ∧ r.error_message = none

/-- All rows of a ledger satisfy `SyncedRowOk`. -/
def LedgerOk (db : Ledger) : Prop :=
  ∀ id r, db id = some r → SyncedRowOk r

/-- Environment with no remote failures and clock reading "t0". -/
def env0 : CTEnv :=
  { lookupFails := false, createFails := false, updateFails := false,
    bucketFails := false, nowTs := "t0" }

/-- A cold-lead contact with a phone number, delivered twice for the
idempotence scenario. -/
def c2Contact : GHLContact :=
  { id := "c1", firstName := some "Jane", lastName := some "Doe",
    email := some "jane@example.com", phone := some "+15551234567",
    tags := ["cold lead"] }

/-- State after the first reconcile of `c2Contact` from the initial state. -/
def c2State1 : SyncState :=
  (syncSingleContact env0 "c1" (some c2Contact) initialState).1

/-- State after reconciling `c2Contact` a second time with identical input. -/
def c2State2 : SyncState :=
  (syncSingleContact env0 "c1" (some c2Contact) c2State1).1

/-- A contact carrying a customer-family label, with no prior ledger row. -/
def c3Contact : GHLContact :=
  { id := "c3", firstName := some "Carol", phone := some "+15550000000",
    tags := ["customer"] }

def c3Run : SyncState × SingleResult :=
  syncSingleContact env0 "c3" (some c3Contact) initialState

/-- A webhook body carrying a syncable cold-lead snapshot. -/
def c4Payload : WebhookPayload :=
  { contact_id := some "c1", first_name := some "Jane",
    phone := some "+15551234567", tags := some "cold lead" }

/-- A request on the signed path: secret configured, signature missing. -/
def c4Req : WebhookReq :=
  { secretConfigured := true, signature := none, sigValid := false,
    parsed := some c4Payload }

def c4Run : Response × SyncState :=
  ghlWebhookHandle env0 c4Req initialState

/-- A ledger row whose sticky customer flag is set. -/
def c5Row : SyncedContact :=
  { ghl_contact_id := "c5", calltools_contact_id := none, first_name := none,
    last_name := none, phone := none, email := none,
    sync_status := .excluded, last_sync_at := none, error_message := none,
    is_customer := 1 }

def c5State : SyncState :=
  { db := fun k => if k = "c5" then some c5Row else none,
    ct := emptyCTStore, calls := [] }

/-- A contact with only cold-lead labels and a phone, whose ledger row is
sticky-excluded. -/
def c5Contact : GHLContact :=
  { id := "c5", firstName := some "Eve", phone := some "+15551112222",
    tags := ["cold lead"] }

def c5Run : SyncState × SingleResult :=
  syncSingleContact env0 "c5" (some c5Contact) c5State

/-- A cold-lead contact without a phone number. -/
def c6Contact : GHLContact :=
  { id := "c6", firstName := some "Frank", tags := ["cold lead"] }

/-- A webhook request that passes the signature gate but has an unparseable
body. -/
def c7WebhookReq : WebhookReq :=
  { secretConfigured := false, signature := none, sigValid := true,
    parsed := none }

/-- A workflow request whose body parses but carries no contact id. -/
def c7WorkflowReq : WorkflowReq :=
  { parsed := some { id := none }, fetched := none }

/-- A write sequence used to witness the ledger invariant: a create-path
`synced` insert followed by a failed update for another contact. -/
def c9Ops : List LedgerOp :=
  [LedgerOp.opSyncedCreate "c1" "0" "Jane" "Doe" "+15551234567" "jane@example.com" "t0",
   LedgerOp.opFailed "c2" "No phone number"]

/-- C1: any label set containing an active-client marker classifies as
`activeClient`; the chain in `classifyContact` tries the active branch first,
so co-occurring customer/cold labels cannot fire. -/
theorem classify_active_priority (tags : List String)
    (h : ∃ t ∈ tags, isActiveClientTag (lowerStr t) = true) :
    classifyContact tags = .activeClient := by
  obtain ⟨t, ht, hact⟩ := h
  have : (tags.map lowerStr).any isActiveClientTag = true := by
    rw [List.any_eq_true]
    exact ⟨lowerStr t, List.mem_map_of_mem _ ht, hact⟩
  simp [classifyContact, this]

/-- C1 witness: a label set carrying an active marker together with a
customer-family label and a cold-family label classifies as `activeClient`. -/
theorem classify_active_priority_witness :
    (∃ t ∈ ["ACA Active 2025", "customer", "cold lead"],
        isActiveClientTag (lowerStr t) = true) ∧
      classifyContact ["ACA Active 2025", "customer", "cold lead"] =
        .activeClient := by
  refine ⟨⟨"ACA Active 2025", by simp, by decide⟩, ?_⟩
  exact classify_active_priority _ ⟨"ACA Active 2025", by simp, by decide⟩

/-- C8: the freshness check accepts exactly the timestamps whose age is
between 0 and 300000 milliseconds inclusive. -/
theorem verifyTimestamp_iff (now timestamp : Int) :
    verifyTimestamp now timestamp = true ↔
      0 ≤ now - timestamp ∧ now - timestamp ≤ 300000 := by
  constructor
  · intro h
    unfold verifyTimestamp at h
    split at h
    · cases h
    · split at h
      · cases h
      · omega
  · intro h
    unfold verifyTimestamp
    rw [if_neg (by omega), if_neg (by omega)]

/-- C2: reconciling the same cold-lead contact twice with identical input
does not find the first target contact: `syncContact` passes no phone number
to the lookup, so the lookup returns null both times, a second CallTools
contact is created, and the ledger's `calltools_contact_id` changes from
"0" to "1". -/
theorem reinvoke_creates_duplicate_target :
    c2State2.ct.contacts.length = 2 ∧
      Option.bind (c2State1.db "c1") SyncedContact.calltools_contact_id =
        some "0" ∧
      Option.bind (c2State2.db "c1") SyncedContact.calltools_contact_id =
        some "1" := by
  decide

/-- C3 counterexample: a reconcile classified excluded via a customer-family
label, with no prior ledger record, does return `excluded` — but a ledger
row for the contact is created, contradicting "no ledger row is created or
mutated". -/
theorem excluded_no_record_still_writes_ledger :
    c3Run.2.action = .excluded ∧ ¬ c3Run.1.db "c3" = none := by
  decide

/-- C3 amended: with a customer-family label and no prior ledger record, the
engine returns `excluded` with no target-system calls, and `markAsCustomer`
creates the missing ledger row with `sync_status = excluded` and
`is_customer = 1`. -/
theorem excluded_customer_creates_excluded_row (env : CTEnv) (st : SyncState)
    (id : String) (ghl : GHLContact)
    (h1 : (ghl.tags.map lowerStr).any isCustomerTag = true)
    (h2 : getSyncedContact st.db id = none) :
    (syncSingleContact env id (some ghl) st).2.action = .excluded ∧
      (syncSingleContact env id (some ghl) st).2.success = true ∧
      (syncSingleContact env id (some ghl) st).1.ct = st.ct ∧
      (syncSingleContact env id (some ghl) st).1.calls = st.calls ∧
      getSyncedContact (syncSingleContact env id (some ghl) st).1.db id =
        some { ghl_contact_id := id, calltools_contact_id := none,
               first_name := none, last_name := none, phone := none,
               email := none, sync_status := .excluded, last_sync_at := none,
               error_message := none, is_customer := 1 } := by
  simp only [syncSingleContact, h1, if_true]
  refine ⟨trivial, trivial, trivial, trivial, ?_⟩
  simp only [getSyncedContact] at h2
  simp [markAsCustomer, updateSyncRecord, createOrUpdateSyncRecord,
    getSyncedContact, jsOrNull, h2]

/-- C3 amended witness: the concrete run `c3Run` instantiates the amended
statement. -/
theorem excluded_customer_creates_excluded_row_witness :
    c3Run.2.action = .excluded ∧
      c3Run.2.success = true ∧
      c3Run.1.ct = initialState.ct ∧
      c3Run.1.calls = initialState.calls ∧
      getSyncedContact c3Run.1.db "c3" =
        some { ghl_contact_id := "c3", calltools_contact_id := none,
               first_name := none, last_name := none, phone := none,
               email := none, sync_status := .excluded, last_sync_at := none,
               error_message := none, is_customer := 1 } :=
  excluded_customer_creates_excluded_row env0 initialState "c3" c3Contact
    (by decide) (by decide)

/-- C4 counterexample: with a webhook secret configured and the signature
header missing, the signed-path handler does not reject: it processes the
event (status 200), makes target-system calls and writes the ledger. -/
theorem missing_signature_not_rejected :
    c4Run.1.status = 200 ∧ c4Run.1.success = true ∧
      ¬ c4Run.2.calls = [] ∧ ¬ c4Run.2.db "c1" = none := by
  decide

/-- C4 amended: when a secret is configured and a signature is present but
fails verification, the handler responds 401 with `success = false` and
leaves the state (ledger, target store, call trace) untouched; a missing
signature is logged and processed anyway. -/
theorem invalid_signature_rejected_401 (env : CTEnv) (req : WebhookReq)
    (st : SyncState) (s : String)
    (hsec : req.secretConfigured = true) (hsig : req.signature = some s)
    (hbad : req.sigValid = false) :
    ghlWebhookHandle env req st =
      ({ status := 401, success := false,
         message := "Invalid webhook signature" }, st) := by
  simp [ghlWebhookHandle, hsec, hsig, hbad]

/-- C4 amended witness: a concrete bad-signature request is rejected with
401 and no state change. -/
theorem invalid_signature_rejected_401_witness :
    ghlWebhookHandle env0
        { secretConfigured := true, signature := some "bad",
          sigValid := false, parsed := some c4Payload } initialState =
      ({ status := 401, success := false,
         message := "Invalid webhook signature" }, initialState) :=
  invalid_signature_rejected_401 env0 _ initialState "bad" rfl rfl rfl

/-- C5: a reconcile for a contact whose ledger row has `is_customer = 1` and
whose current labels are only cold-lead labels is short-circuited with no
target-system calls and reported as success — but the returned action is
`failed`, not `excluded`: the action ternary in `syncSingleContact` ignores
the `excluded_customers` counter. -/
theorem sticky_customer_short_circuit_reports_failed_action :
    c5Run.2.success = true ∧ c5Run.2.action = .failed ∧
      ¬ c5Run.2.action = .excluded ∧ c5Run.1.calls = [] ∧
      c5Run.1.ct = c5State.ct := by
  decide

/-- When every ledger row for the contact (if any) has its customer flag
unset, `syncContact` falls through its sticky-customer check. -/
theorem syncContact_no_sticky (env : CTEnv) (ghl : GHLContact)
    (res : SyncResult) (bucketId : String) (st : SyncState)
    (hrec : ∀ r, getSyncedContact st.db ghl.id = some r → ¬ r.is_customer = 1) :
    syncContact env ghl res bucketId st =
      syncContactBody env ghl res bucketId st := by
  unfold syncContact
  rcases h : getSyncedContact st.db ghl.id with _ | r
  · rfl
  · simp [hrec r h]

/-- A falsy phone makes `syncContactBody` record the failure and stop. -/
theorem syncContactBody_no_phone (env : CTEnv) (ghl : GHLContact)
    (res : SyncResult) (bucketId : String) (st : SyncState)
    (hphone : jsOrStr ghl.phone "" = "") :
    syncContactBody env ghl res bucketId st =
      (SyncState.mk
        (updateSyncRecord st.db ghl.id
          { sync_status := some .failed
            error_message := some (some "No phone number") })
        st.ct st.calls,
       { res with failed := res.failed + 1 }, none) := by
  simp [syncContactBody, hphone]

/-- A `failed` ledger update leaves a row with the failed status and the
given non-empty error message, whether or not a row already existed. -/
theorem getSyncedContact_after_failed (db : Ledger) (id msg : String)
    (hmsg : ¬ msg = "") :
    ∃ r, getSyncedContact (updateSyncRecord db id
        { sync_status := some .failed, error_message := some (some msg) }) id =
          some r ∧
      r.sync_status = .failed ∧ r.error_message = some msg := by
  rcases h : getSyncedContact db id with _ | r
  · have hrow : getSyncedContact (updateSyncRecord db id
        { sync_status := some .failed, error_message := some (some msg) }) id =
          some { ghl_contact_id := id, calltools_contact_id := none,
                 first_name := none, last_name := none, phone := none,
                 email := none, sync_status := .failed, last_sync_at := none,
                 error_message := some msg, is_customer := 0 } := by
      simp only [updateSyncRecord, h]
      simp only [getSyncedContact] at h
      simp [createOrUpdateSyncRecord, getSyncedContact, jsOrNull, hmsg, h]
    exact ⟨_, hrow, rfl, rfl⟩
  · have hrow : getSyncedContact (updateSyncRecord db id
        { sync_status := some .failed, error_message := some (some msg) }) id =
          some { r with sync_status := .failed, error_message := some msg } := by
      simp only [updateSyncRecord, h]
      simp [getSyncedContact]
    exact ⟨_, hrow, rfl, rfl⟩

/-- C6: a cold-lead-classified reconcile (cold label present, no customer
label, no sticky customer flag) for a contact with a falsy phone number
fails: the result action is `failed` with `success = false`, the ledger row
holds `sync_status = failed` and the error "No phone number", and no
target-system call is made. -/
theorem cold_lead_missing_phone_fails (env : CTEnv) (ghl : GHLContact)
    (st : SyncState)
    (hcust : (ghl.tags.map lowerStr).any isCustomerTag = false)
    (hcold : (ghl.tags.map lowerStr).any isColdTag = true)
    (hrec : ∀ r, getSyncedContact st.db ghl.id = some r → ¬ r.is_customer = 1)
    (hphone : jsOrStr ghl.phone "" = "") :
    (syncSingleContact env ghl.id (some ghl) st).2.action = .failed ∧
      (syncSingleContact env ghl.id (some ghl) st).2.success = false ∧
      (syncSingleContact env ghl.id (some ghl) st).1.ct = st.ct ∧
      (syncSingleContact env ghl.id (some ghl) st).1.calls = st.calls ∧
      ∃ r, getSyncedContact (syncSingleContact env ghl.id (some ghl) st).1.db
            ghl.id = some r ∧
        r.sync_status = .failed ∧ r.error_message = some "No phone number" := by
  have hbody := syncContactBody_no_phone env ghl
    { total_processed := 1, synced := 0, updated := 0, excluded_customers := 0,
      failed := 0, bucket_name := "Cold Leads",
      bucket_id := some coldLeadsBucketId, errors := [] }
    coldLeadsBucketId st hphone
  have hskip := syncContact_no_sticky env ghl
    { total_processed := 1, synced := 0, updated := 0, excluded_customers := 0,
      failed := 0, bucket_name := "Cold Leads",
      bucket_id := some coldLeadsBucketId, errors := [] }
    coldLeadsBucketId st hrec
  simp only [syncSingleContact, hcust, hcold, Bool.not_true, Bool.false_eq_true,
    if_false, hskip, hbody]
  refine ⟨by decide, by decide, by trivial, by trivial, ?_⟩
  exact getSyncedContact_after_failed st.db ghl.id "No phone number" (by decide)

/-- C6 witness: a contact with only the "cold lead" label and no phone, from
the empty state. -/
theorem cold_lead_missing_phone_fails_witness :
    (syncSingleContact env0 c6Contact.id (some c6Contact) initialState).2.action
        = .failed ∧
      (syncSingleContact env0 c6Contact.id (some c6Contact)
          initialState).2.success = false ∧
      (syncSingleContact env0 c6Contact.id (some c6Contact) initialState).1.ct
        = initialState.ct ∧
      (syncSingleContact env0 c6Contact.id (some c6Contact)
          initialState).1.calls = initialState.calls ∧
      ∃ r, getSyncedContact
            (syncSingleContact env0 c6Contact.id (some c6Contact)
              initialState).1.db c6Contact.id = some r ∧
        r.sync_status = .failed ∧ r.error_message = some "No phone number" :=
  cold_lead_missing_phone_fails env0 c6Contact initialState (by decide)
    (by decide)
    (by intro r h; simp [initialState, getSyncedContact, emptyLedger] at h)
    (by decide)

/-- C7: an inbound webhook request (one not rejected by the signature gate)
or workflow request whose body fails to parse, or from which no contact id
can be extracted, is answered with a 400 structured error (`success = false`)
and leaves the entire state — ledger, target store and call trace —
unchanged. -/
theorem input_errors_yield_400_no_side_effects (env : CTEnv) (st : SyncState)
    (wreq : WebhookReq) (freq : WorkflowReq)
    (hsig : ¬ (wreq.secretConfigured = true ∧ wreq.signature.isSome = true ∧
      wreq.sigValid = false))
    (hw : wreq.parsed = none ∨
      ∃ w, wreq.parsed = some w ∧ webhookContactId w = none)
    (hf : freq.parsed = none ∨
      ∃ w, freq.parsed = some w ∧ workflowContactId w = none) :
    ((ghlWebhookHandle env wreq st).1.status = 400 ∧
      (ghlWebhookHandle env wreq st).1.success = false ∧
      (ghlWebhookHandle env wreq st).2 = st) ∧
    ((ghlWorkflowHandle env freq st).1.status = 400 ∧
      (ghlWorkflowHandle env freq st).1.success = false ∧
      (ghlWorkflowHandle env freq st).2 = st) := by
  have hwb : (ghlWebhookBody env wreq st).1.status = 400 ∧
      (ghlWebhookBody env wreq st).1.success = false ∧
      (ghlWebhookBody env wreq st).2 = st := by
    rcases hw with h | ⟨w, hparse, hid⟩
    · simp [ghlWebhookBody, h]
    · simp [ghlWebhookBody, hparse, hid]
  have hhandle : ghlWebhookHandle env wreq st = ghlWebhookBody env wreq st := by
    unfold ghlWebhookHandle
    by_cases hs : wreq.secretConfigured = true
    · rcases hsgn : wreq.signature with _ | s
      · simp [hs, hsgn]
      · have hv : wreq.sigValid = true := by
          rcases hvb : wreq.sigValid
          · exact absurd ⟨hs, by simp [hsgn], hvb⟩ hsig
          · rfl
        simp [hs, hsgn, hv]
    · simp [hs]
  refine ⟨hhandle ▸ hwb, ?_⟩
  rcases hf with h | ⟨w, hparse, hid⟩
  · simp [ghlWorkflowHandle, h]
  · simp [ghlWorkflowHandle, hparse, hid]

/-- C7 witness: a webhook request with an unparseable body (no secret
configured) and a workflow request whose body carries no contact id. -/
theorem input_errors_yield_400_no_side_effects_witness :
    ((ghlWebhookHandle env0 c7WebhookReq initialState).1.status = 400 ∧
      (ghlWebhookHandle env0 c7WebhookReq initialState).1.success = false ∧
      (ghlWebhookHandle env0 c7WebhookReq initialState).2 = initialState) ∧
    ((ghlWorkflowHandle env0 c7WorkflowReq initialState).1.status = 400 ∧
      (ghlWorkflowHandle env0 c7WorkflowReq initialState).1.success = false ∧
      (ghlWorkflowHandle env0 c7WorkflowReq initialState).2 = initialState) :=
  input_errors_yield_400_no_side_effects env0 initialState c7WebhookReq
    c7WorkflowReq (by simp [c7WebhookReq]) (Or.inl rfl)
    (Or.inr ⟨_, rfl, by decide⟩)

/-- A partial update whose `sync_status` field is provided leaves a row at
the updated key with exactly that status. -/
theorem updateSyncRecord_self_status (db : Ledger) (id : String)
    (u : SyncUpdates) (s : SyncStatus) (hstat : u.sync_status = some s) :
    ∀ r, updateSyncRecord db id u id = some r → r.sync_status = s := by
  intro r hr
  rcases h0 : getSyncedContact db id with _ | r0
  · simp [updateSyncRecord, createOrUpdateSyncRecord, h0] at hr
    subst hr
    simp [hstat]
  · simp [updateSyncRecord, h0] at hr
    subst hr
    simp [hstat]

/-- A full `synced` update with a non-empty timestamp and a null error
leaves a row with that status, timestamp and no error. -/
theorem updateSyncRecord_self_synced (db : Ledger) (id : String)
    (u : SyncUpdates) (ts : String) (hstat : u.sync_status = some .synced)
    (hlast : u.last_sync_at = some (some ts)) (hts : ¬ ts = "")
    (herr : u.error_message = some none) :
    ∀ r, updateSyncRecord db id u id = some r → r.sync_status = .synced ∧
      r.last_sync_at = some ts ∧ r.error_message = none := by
  intro r hr
  rcases h0 : getSyncedContact db id with _ | r0
  · simp [updateSyncRecord, createOrUpdateSyncRecord, h0] at hr
    subst hr
    simp [hstat, hlast, herr, jsOrNull, hts]
  · simp [updateSyncRecord, h0] at hr
    subst hr
    simp [hstat, hlast, herr]

/-- A create-path upsert carrying `synced`, a non-empty timestamp and a null
error leaves such a row at its key. -/
theorem createOrUpdateSyncRecord_self_synced (db : Ledger) (data : RecordData)
    (ts : String) (hstat : data.sync_status = .synced)
    (hlast : data.last_sync_at = some ts) (hts : ¬ ts = "")
    (herr : data.error_message = none) :
    ∀ r, createOrUpdateSyncRecord db data data.ghl_contact_id = some r →
      r.sync_status = .synced ∧ r.last_sync_at = some ts ∧
      r.error_message = none := by
  intro r hr
  rcases h0 : getSyncedContact db data.ghl_contact_id with _ | r0
  · simp [createOrUpdateSyncRecord, h0] at hr
    subst hr
    simp [hstat, hlast, herr, jsOrNull, hts]
  · simp [createOrUpdateSyncRecord, h0] at hr
    subst hr
    simp [hstat, hlast, herr]

/-- `markAsCustomer` leaves a row with status `excluded` at its key. -/
theorem markAsCustomer_self_status (db : Ledger) (id : String) :
    ∀ r, markAsCustomer db id id = some r → r.sync_status = .excluded := by
  intro r hr
  simp only [markAsCustomer] at hr
  simp at hr
  obtain ⟨a, ha, har⟩ := hr
  have hstat := updateSyncRecord_self_status db id
    { sync_status := some .excluded } .excluded rfl a ha
  subst har
  simp [hstat]

/-- A partial update does not touch rows at other keys. -/
theorem updateSyncRecord_other (db : Ledger) (id : String) (u : SyncUpdates)
    (k : String) (hk : ¬ k = id) : updateSyncRecord db id u k = db k := by
  rcases h0 : getSyncedContact db id with _ | r0
  · simp [updateSyncRecord, createOrUpdateSyncRecord, h0, hk]
  · simp [updateSyncRecord, h0, hk]

/-- An upsert does not touch rows at other keys. -/
theorem createOrUpdateSyncRecord_other (db : Ledger) (data : RecordData)
    (k : String) (hk : ¬ k = data.ghl_contact_id) :
    createOrUpdateSyncRecord db data k = db k := by
  rcases h0 : getSyncedContact db data.ghl_contact_id with _ | r0
  · simp [createOrUpdateSyncRecord, h0, hk]
  · simp [createOrUpdateSyncRecord, h0, hk]

/-- `markAsCustomer` does not touch rows at other keys. -/
theorem markAsCustomer_other (db : Ledger) (id k : String) (hk : ¬ k = id) :
    markAsCustomer db id k = db k := by
  simp [markAsCustomer, hk, updateSyncRecord_other db id _ k hk]

/-- Each reachable ledger write preserves the row invariant, given that the
timestamps carried by `synced` writes are non-empty. -/
theorem ledgerOk_applyOp (db : Ledger) (op : LedgerOp) (hts : opTsOk op)
    (h : LedgerOk db) : LedgerOk (applyOp db op) := by
  cases op with
  | opFailed id msg =>
      intro k r hk
      simp only [applyOp] at hk
      by_cases hkk : k = id
      · subst hkk
        have hstat := updateSyncRecord_self_status db k
          { sync_status := some .failed, error_message := some (some msg) }
          .failed rfl r hk
        intro hsync
        rw [hstat] at hsync
        exact absurd hsync (by decide)
      · rw [updateSyncRecord_other db id _ k hkk] at hk
        exact h k r hk
  | opSyncedUpdate id ctid fn ln ph em ts =>
      have hts' : ¬ ts = "" := hts
      intro k r hk
      simp only [applyOp] at hk
      by_cases hkk : k = id
      · subst hkk
        have hfields := updateSyncRecord_self_synced db k
          { calltools_contact_id := some (some ctid)
            first_name := some (some fn)
            last_name := some (some ln)
            phone := some (some ph)
            email := some (some em)
            sync_status := some .synced
            last_sync_at := some (some ts)
            error_message := some none } ts rfl rfl hts' rfl r hk
        intro _
        exact ⟨by simp [hfields.2.1], hfields.2.2⟩
      · rw [updateSyncRecord_other db id _ k hkk] at hk
        exact h k r hk
  | opSyncedCreate id ctid fn ln ph em ts =>
      have hts' : ¬ ts = "" := hts
      intro k r hk
      simp only [applyOp] at hk
      by_cases hkk : k = id
      · subst hkk
        have hfields := createOrUpdateSyncRecord_self_synced db
          { ghl_contact_id := k, calltools_contact_id := some ctid,
            first_name := some fn, last_name := jsOrNull (some ln),
            phone := some ph, email := jsOrNull (some em),
            sync_status := .synced, last_sync_at := some ts,
            error_message := none, is_customer := 0 } ts rfl rfl hts' rfl r hk
        intro _
        exact ⟨by simp [hfields.2.1], hfields.2.2⟩
      · rw [createOrUpdateSyncRecord_other db _ k hkk] at hk
        exact h k r hk
  | opMarkCustomer id =>
      intro k r hk
      simp only [applyOp] at hk
      by_cases hkk : k = id
      · subst hkk
        have hstat := markAsCustomer_self_status db k r hk
        intro hsync
        rw [hstat] at hsync
        exact absurd hsync (by decide)
      · rw [markAsCustomer_other db id k hkk] at hk
        exact h k r hk

/-- Any sequence of reachable ledger writes preserves the invariant. -/
theorem ledgerOk_applyOps (ops : List LedgerOp)
    (hts : ∀ op ∈ ops, opTsOk op) :
    ∀ db, LedgerOk db → LedgerOk (applyOps ops db) := by
  induction ops with
  | nil => intro db hdb; simpa [applyOps] using hdb
  | cons op rest ih =>
      intro db hdb
      simp only [applyOps, List.foldl] at *
      exact ih (fun o ho => hts o (List.mem_cons_of_mem _ ho)) _
        (ledgerOk_applyOp db op (hts op (List.mem_cons_self _ _)) hdb)

/-- C9: after any sequence of the service's ledger writes starting from the
empty ledger, every row with `sync_status = synced` has a set `last_sync_at`
and a null `error_message` (the timestamps carried by `synced` writes come
from `toISOString()` and are non-empty). -/
theorem ledger_synced_rows_have_timestamp_and_no_error
    (ops : List LedgerOp) (hts : ∀ op ∈ ops, opTsOk op)
    (id : String) (r : SyncedContact)
    (hrow : applyOps ops emptyLedger id = some r)
    (hsync : r.sync_status = .synced) :
    r.last_sync_at.isSome = true ∧ r.error_message = none := by
  have hempty : LedgerOk emptyLedger := by
    intro k r hk
    cases hk
  exact ledgerOk_applyOps ops hts emptyLedger hempty id r hrow hsync

/-- C9 witness: running a concrete create-then-fail write sequence from the
empty ledger, the resulting synced row for "c1" has a timestamp and no
error. -/
theorem ledger_synced_rows_have_timestamp_and_no_error_witness :
    (SyncedContact.mk "c1" (some "0") (some "Jane") (some "Doe")
        (some "+15551234567") (some "jane@example.com") .synced (some "t0")
        none 0).last_sync_at.isSome = true ∧
      (SyncedContact.mk "c1" (some "0") (some "Jane") (some "Doe")
        (some "+15551234567") (some "jane@example.com") .synced (some "t0")
        none 0).error_message = none :=
  ledger_synced_rows_have_timestamp_and_no_error c9Ops
    (by
      intro op hop
      simp only [c9Ops, List.mem_cons, List.mem_singleton] at hop
      rcases hop with rfl | rfl | h
      · simp [opTsOk]
      · simp [opTsOk]
      · cases h)
    "c1" _ (by decide) rfl

/-- When `syncContactTry` completes without throwing, exactly one counter
(here `synced` or `updated`) has been incremented, and `total_processed` and
`errors` are untouched. -/
theorem syncContactTry_inl (env : CTEnv) (ghl : GHLContact)
    (payload : CTPayload) (bucketId : String) (res : SyncResult)
    (st : SyncState) :
    ∀ st' res', syncContactTry env ghl payload bucketId res st =
        .inl (st', res') →
      counterSum res' = counterSum res + 1 ∧
        res'.total_processed = res.total_processed := by
  intro st' res' h
  unfold syncContactTry at h
  rw [show getContactByExternalId env st.ct ghl.id none = none from by
    simp [getContactByExternalId]] at h
  simp only [ctCreateContact] at h
  split at h
  · cases h
  · split at h
    · split at h
      · cases h
      · simp only [syncCreateFinish, Sum.inl.injEq, Prod.mk.injEq] at h
        obtain ⟨-, h2⟩ := h
        subst h2
        simp [counterSum]
        omega
    · simp only [syncCreateFinish, Sum.inl.injEq, Prod.mk.injEq] at h
      obtain ⟨-, h2⟩ := h
      subst h2
      simp [counterSum]
      omega

/-- When `syncContactTry` throws, the result counters are those passed in. -/
theorem syncContact_cases (env : CTEnv) (ghl : GHLContact) (res : SyncResult)
    (bucketId : String) (st : SyncState) :
    ((syncContact env ghl res bucketId st).2.2 = none ∧
      counterSum (syncContact env ghl res bucketId st).2.1 =
        counterSum res + 1 ∧
      (syncContact env ghl res bucketId st).2.1.total_processed =
        res.total_processed) ∨
    (¬ (syncContact env ghl res bucketId st).2.2 = none ∧
      (syncContact env ghl res bucketId st).2.1 = res) := by
  unfold syncContact
  rcases h0 : getSyncedContact st.db ghl.id with _ | r0
  · unfold syncContactBody
    by_cases hp : jsOrStr ghl.phone "" = ""
    · left
      simp [hp, counterSum]
      omega
    · simp only [hp, if_neg, if_false]
      rcases ht : syncContactTry env ghl (syncContactPayload ghl bucketId)
          bucketId res st with ⟨st', res'⟩ | ⟨st', msg⟩
      · left
        have := syncContactTry_inl env ghl _ bucketId res st st' res' ht
        simp [ht, this.1, this.2]
      · right
        simp [ht]
  · by_cases hc : r0.is_customer = 1
    · left
      simp [hc, counterSum]
      omega
    · simp only [hc, if_neg, if_false]
      unfold syncContactBody
      by_cases hp : jsOrStr ghl.phone "" = ""
      · left
        simp [hp, counterSum]
        omega
      · simp only [hp, if_neg, if_false]
        rcases ht : syncContactTry env ghl (syncContactPayload ghl bucketId)
            bucketId res st with ⟨st', res'⟩ | ⟨st', msg⟩
        · left
          have := syncContactTry_inl env ghl _ bucketId res st st' res' ht
          simp [ht, this.1, this.2]
        · right
          simp [ht]

/-- The per-contact loop adds exactly one counted outcome per contact. -/
theorem syncColdLoop_sum (env : String → CTEnv)
    (contacts : List GHLContact) :
    ∀ st res, counterSum (syncColdLoop env contacts st res).2 =
        counterSum res + contacts.length ∧
      (syncColdLoop env contacts st res).2.total_processed =
        res.total_processed := by
  induction contacts with
  | nil => intro st res; simp [syncColdLoop]
  | cons ghl rest ih =>
      intro st res
      unfold syncColdLoop
      rcases hsc : syncContact (env ghl.id) ghl res coldLeadsBucketId st
        with ⟨st', res', thr⟩
      rcases thr with _ | e
      · rcases syncContact_cases (env ghl.id) ghl res coldLeadsBucketId st
          with ⟨h0, hsum, htot⟩ | ⟨h0, heq⟩
        · rw [hsc] at hsum htot
          simp only at hsum htot
          have hrest := ih st' res'
          constructor
          · show counterSum (syncColdLoop env rest st' res').2 =
              counterSum res + (ghl :: rest).length
            rw [hrest.1, hsum, List.length_cons]
            omega
          · show (syncColdLoop env rest st' res').2.total_processed =
              res.total_processed
            rw [hrest.2, htot]
        · rw [hsc] at h0
          simp at h0
      · rcases syncContact_cases (env ghl.id) ghl res coldLeadsBucketId st
          with ⟨h0, hsum, htot⟩ | ⟨h0, heq⟩
        · rw [hsc] at h0
          simp only at h0
          cases h0
        · rw [hsc] at heq
          simp only at heq
          have hrest := ih st'
            { res' with failed := res'.failed + 1,
                        errors := res'.errors ++ [(ghl.id, e)] }
          constructor
          · show counterSum (syncColdLoop env rest st'
                { res' with failed := res'.failed + 1,
                            errors := res'.errors ++ [(ghl.id, e)] }).2 =
              counterSum res + (ghl :: rest).length
            rw [hrest.1, heq]
            simp [counterSum, List.length_cons]
            omega
          · show (syncColdLoop env rest st'
                { res' with failed := res'.failed + 1,
                            errors := res'.errors ++ [(ghl.id, e)] }).2.total_processed =
              res.total_processed
            rw [hrest.2, heq]

/-- C10: the batch sync partitions the fetched contacts among the four
outcome counters: on return, `synced + updated + excluded_customers + failed`
equals `total_processed`, which equals the number of contacts fetched. -/
theorem syncColdContacts_counter_partition (env : String → CTEnv)
    (coldContacts : List GHLContact) (st : SyncState) :
    (syncColdContacts env coldContacts st).2.synced +
        (syncColdContacts env coldContacts st).2.updated +
        (syncColdContacts env coldContacts st).2.excluded_customers +
        (syncColdContacts env coldContacts st).2.failed =
      coldContacts.length ∧
    (syncColdContacts env coldContacts st).2.total_processed =
      coldContacts.length := by
  have h := syncColdLoop_sum env coldContacts st
    { total_processed := coldContacts.length, synced := 0, updated := 0,
      excluded_customers := 0, failed := 0, bucket_name := "Cold Leads",
      bucket_id := some coldLeadsBucketId, errors := [] }
  unfold syncColdContacts
  refine ⟨?_, ?_⟩
  · have := h.1
    simp [counterSum] at this
    exact this
  · exact h.2

end SyncWorker
